import Mathlib

/-!
Verification of `fly-wireguard-vpn-proxy`.

The repository contains two parallel implementations of the one-time
bootstrap HTTP handler:

* `cmd/bootstrap-http/main.go` (the binary built by the Dockerfile), and
* `internal/bootstrap/server.go` (`Server.bootstrap`),

plus the background keepalive loop `Server.keepaliveLoop` and the shared
(byte-identical in both files) `rewriteEndpoint` normalization.

Go strings are modelled as `List Char`.  Go's `unicode.IsSpace` is modelled
by its Latin-1 subset (`\t \n \v \f \r`, space, NEL, NBSP); configuration
files and the claims only involve ASCII.  Go `time.Duration` values
(`int64` nanoseconds) are modelled as `Int`.
-/

/-- Go strings, modelled as lists of characters. -/
abbrev GoStr := List Char

/-- Coerce a Lean string literal to the Go string model. -/
def gs (s : String) : GoStr := s.toList

/-- Go `unicode.IsSpace`, restricted to Latin-1 (the set Go special-cases). -/
def isWS (c : Char) : Bool :=
  c == ' ' || c == '\t' || c == '\n' || c == '\x0B' || c == '\x0C' || c == '\r' ||
    c == '\u0085' || c == '\u00A0'

/-- Go `strings.TrimSpace`. -/
def trimSpace (s : GoStr) : GoStr :=
  ((s.dropWhile isWS).reverse.dropWhile isWS).reverse

/-- Characters counted as indentation by the `Endpoint` rewrite:
Go `strings.TrimLeft(line, " \t")` removes exactly these. -/
def isIndentChar (c : Char) : Bool := c == ' ' || c == '\t'

/-- The leading-whitespace run of a line: Go `line[:indentLen]` where
`indentLen = len(line) - len(strings.TrimLeft(line, " \t"))`. -/
def leadWS (s : GoStr) : GoStr := s.takeWhile isIndentChar

/-- Go `strings.TrimPrefix`. -/
def trimPref (pre s : GoStr) : GoStr :=
  if pre.isPrefixOf s then s.drop pre.length else s

/-- Go `strings.LastIndex(s, string(c))` for a one-character needle:
the index of the last occurrence of `c`, or `-1` when absent. -/
def lastIdxOf (c : Char) : GoStr → Int
  | [] => -1
  | a :: rest =>
    let r := lastIdxOf c rest
    if r ≥ 0 then r + 1
    else if a == c then 0 else -1

/-- Does a line's trimmed form start the `Endpoint` directive?  Mirrors the
loop guard in `rewriteEndpoint` (both copies): the line is skipped unless
`strings.TrimSpace(line)` has prefix `"Endpoint "` or `"Endpoint="`. -/
def isEndpointLine (line : GoStr) : Bool :=
  (gs "Endpoint ").isPrefixOf (trimSpace line) ||
    (gs "Endpoint=").isPrefixOf (trimSpace line)

/-- The body of `rewriteEndpoint`'s loop once the first `Endpoint` line is
found (identical in `server.go` and `main.go`).  Returns `some newLine`
when the line is replaced, `none` when the function returns `conf`
unchanged. -/
def rewriteLine (line appName port : GoStr) : Option GoStr :=
  let trimmed := trimSpace line
  let indent := leadWS line
  let current :=
    (trimSpace (trimPref (gs "Endpoint") trimmed)).dropWhile
      (fun c => c == ' ' || c == '=')
  if appName ≠ [] ∧ port ≠ [] then
    some (indent ++ gs "Endpoint = " ++ appName ++ gs ".fly.dev:" ++ port)
  else if current.count ':' > 1 ∧ current.contains ']' = false then
    let lastColon := lastIdxOf ':' current
    if lastColon > 0 ∧ lastColon < (current.length : Int) - 1 then
      let host := current.take lastColon.toNat
      let p := current.drop (lastColon.toNat + 1)
      if p ≠ [] then
        some (indent ++ gs "Endpoint = [" ++ host ++ gs "]:" ++ p)
      else none
    else none
  else none

/-- The `for i, line := range lines` loop of `rewriteEndpoint`: find the
first `Endpoint` line; `some newLines` when that line was replaced,
`none` when the function returns the original `conf`. -/
def rewriteLines (appName port : GoStr) : List GoStr → Option (List GoStr)
  | [] => none
  | line :: rest =>
    if isEndpointLine line then
      match rewriteLine line appName port with
      | some nl => some (nl :: rest)
      | none => none
    else
      (rewriteLines appName port rest).map (fun ls => line :: ls)

/-- Go `strings.Split(conf, "\n")`. -/
def splitOnNl : GoStr → List GoStr
  | [] => [[]]
  | c :: rest =>
    if c == '\n' then [] :: splitOnNl rest
    else
      match splitOnNl rest with
      | [] => [[c]]
      | l :: ls => (c :: l) :: ls

/-- Go `strings.Join(lines, "\n")`. -/
def joinNl (ls : List GoStr) : GoStr := List.intercalate ['\n'] ls

/-- `rewriteEndpoint(conf, appName, port)` — identical in
`internal/bootstrap/server.go` and `cmd/bootstrap-http/main.go`. -/
def rewriteEndpoint (conf appName port : GoStr) : GoStr :=
  match rewriteLines appName port (splitOnNl conf) with
  | some ls => joinNl ls
  | none => conf

/-- Index of the first line recognized as an `Endpoint` directive. -/
def firstEndpointIdx : List GoStr → Option Nat
  | [] => none
  | l :: ls =>
    if isEndpointLine l then some 0 else (firstEndpointIdx ls).map (· + 1)

/-! ## The bootstrap HTTP handlers

The handler environment collects everything the Go handlers observe:
the existence of the done marker (`os.Stat(donePath)`), the configured
`BOOTSTRAP_TOKEN`, the request's `token` query value (Go's
`r.URL.Query().Get` returns `""` when the parameter is absent), the result
of `os.ReadFile(confPath)`, the endpoint host/port used by
`rewriteEndpoint`, the result of `qrcode.Encode` (`none` = error, in which
case Go's returned byte slice is `nil`), and whether the
`os.WriteFile(donePath, ...)` marker write succeeds. -/
structure Env where
  markerExists : Bool
  bootstrapToken : GoStr
  reqToken : GoStr
  confFile : Option GoStr
  endpointHost : GoStr
  endpointPort : GoStr
  qrResult : Option GoStr
  writeOk : Bool
deriving DecidableEq

/-- A handler response: an `http.Error` with its status and message, or the
rendered config page (implicitly HTTP 200).  The page carries the
normalized config text and the raw QR PNG bytes; the base64 step
(`encoding/base64`, an injective stdlib encoding) is elided. -/
inductive HttpResponse where
  | err (code : Nat) (msg : GoStr)
  | page (config : GoStr) (qrPng : GoStr)
deriving DecidableEq

/-- The HTTP status of a response: `http.Error` writes its code, a
successful `Execute` of the page template writes 200. -/
def HttpResponse.status : HttpResponse → Nat
  | .err code _ => code
  | .page _ _ => 200

/-- Which collaborator side effects a handler run performed:
`readConfig` — `os.ReadFile(confPath)` was called;
`triedWrite` — `os.WriteFile(donePath, ...)` was called. -/
structure Effects where
  readConfig : Bool
  triedWrite : Bool
deriving DecidableEq

/-- Whether the done marker exists after the handler run: it existed
before, or the handler attempted the write and the write succeeded. -/
def markerAfter (e : Env) (eff : Effects) : Bool :=
  e.markerExists || (eff.triedWrite && e.writeOk)

/-- The `/bootstrap` handler of `cmd/bootstrap-http/main.go` (the closure
registered on the mux in `main`): 410 when the done marker exists; with a
configured token, 401 when the request token is empty and 403 when it
mismatches; 503 when the config read fails; 500 when QR encoding fails
(before the marker write); 500 when the marker write fails; otherwise the
rendered page. -/
def mainBootstrap (e : Env) : HttpResponse × Effects :=
  if e.markerExists then
    (.err 410 (gs "bootstrap already completed"), ⟨false, false⟩)
  else if e.bootstrapToken ≠ [] ∧ e.reqToken = [] then
    (.err 401 (gs "missing token"), ⟨false, false⟩)
  else if e.bootstrapToken ≠ [] ∧ e.reqToken ≠ e.bootstrapToken then
    (.err 403 (gs "invalid token"), ⟨false, false⟩)
  else
    match e.confFile with
    | none => (.err 503 (gs "config not ready"), ⟨true, false⟩)
    | some conf =>
      let confStr := rewriteEndpoint conf e.endpointHost e.endpointPort
      match e.qrResult with
      | none => (.err 500 (gs "failed to generate qr"), ⟨true, false⟩)
      | some png =>
        if e.writeOk then (.page confStr png, ⟨true, true⟩)
        else (.err 500 (gs "failed to finalize bootstrap"), ⟨true, true⟩)

/-- `Server.bootstrap` of `internal/bootstrap/server.go`: 410 when the
done marker exists; 401 when a token is configured and the request token
differs (there is no separate 403 case); 503 when the config read fails.
The `qrcode.Encode` error is discarded (`qrPNG, _ := ...`, so a failure
leaves `qrPNG` nil) and the `os.WriteFile` marker-write error is discarded
(`_ = os.WriteFile(...)`); the page is rendered regardless. -/
def serverBootstrap (e : Env) : HttpResponse × Effects :=
  if e.markerExists then
    (.err 410 (gs "bootstrap already completed"), ⟨false, false⟩)
  else if e.bootstrapToken ≠ [] ∧ e.reqToken ≠ e.bootstrapToken then
    (.err 401 (gs "unauthorized"), ⟨false, false⟩)
  else
    match e.confFile with
    | none => (.err 503 (gs "config not ready"), ⟨true, false⟩)
    | some conf =>
      let confStr := rewriteEndpoint conf e.endpointHost e.endpointPort
      let qrPNG := e.qrResult.getD []
      (.page confStr qrPNG, ⟨true, true⟩)

/-- A request passes the token gate of both handlers: either no token is
configured, or the request supplies exactly the configured token. -/
def tokenOk (e : Env) : Prop :=
  e.bootstrapToken = [] ∨ (e.reqToken ≠ [] ∧ e.reqToken = e.bootstrapToken)

/-! ## The keepalive loop (`Server.keepaliveLoop`)

Durations are `time.Duration` = `int64` nanoseconds, modelled as `Int`. -/

/-- Nanoseconds per second (`time.Second`). -/
def nsPerSecond : Int := 1000000000

/-- `startupWindow = 2 * time.Minute`. -/
def startupWindow : Int := 2 * 60 * nsPerSecond

/-- `maxIdle = 5 * time.Minute`. -/
def maxIdle : Int := 5 * 60 * nsPerSecond

/-- `interval = 30 * time.Second`. -/
def interval : Int := 30 * nsPerSecond

/-- The outcome of one `getWireGuardIdleDuration` poll, i.e. its
`(idle, noHandshake, err)` return triple:
`pollErr` — the `wg show` command failed (`err ≠ nil`);
`noHandshake` — no peer has ever handshaken;
`active idle` — duration since the most recent handshake. -/
inductive PollResult where
  | pollErr
  | noHandshake
  | active (idle : Int)
deriving DecidableEq

/-- The loop-local state of `keepaliveLoop`: `lastIdle` (initially `-1`),
`connected`, and `connectedSince` (meaningful only while `connected`). -/
structure Tracker where
  lastIdle : Int
  connected : Bool
  connectedSince : Int
deriving DecidableEq

/-- The state of `keepaliveLoop`'s local variables at loop start. -/
def Tracker.init : Tracker := ⟨-1, false, 0⟩

/-- What one loop iteration did: whether it hit a `return` (terminating
the loop), whether it attempted the keep-alive `client.Get(url)` ping,
and the tracker state afterwards. -/
structure TickResult where
  terminated : Bool
  pinged : Bool
  next : Tracker
deriving DecidableEq

/-- One iteration of the `for` loop in `keepaliveLoop`, after the
`time.Sleep(interval)`.  `sinceStart` is `time.Since(start)`, `now` the
current time (used for `connectedSince`), `poll` the
`getWireGuardIdleDuration` outcome, and `pingOk` whether the
`client.Get(url)` ping succeeds — the code consults `pingOk` only to
decide whether to drain the response body, so it never affects the
result.  Within the startup window the loop pings unconditionally; a poll
error logs and pings; `noHandshake` returns without pinging;
`idle > maxIdle` (after `lastIdle = idle`) returns without pinging;
otherwise the session is marked connected and a ping is sent. -/
def keepaliveTick (sinceStart now : Int) (poll : PollResult) (_pingOk : Bool)
    (st : Tracker) : TickResult :=
  if sinceStart ≤ startupWindow then ⟨false, true, st⟩
  else
    match poll with
    | .pollErr => ⟨false, true, st⟩
    | .noHandshake => ⟨true, false, st⟩
    | .active idle =>
      let st1 : Tracker := { st with lastIdle := idle }
      if idle > maxIdle then ⟨true, false, st1⟩
      else if !st.connected then
        ⟨false, true, { st1 with connected := true, connectedSince := now }⟩
      else ⟨false, true, st1⟩

example :
    rewriteEndpoint (gs "Endpoint = 2a02:1234::1:51820") (gs "") (gs "51820") =
      gs "Endpoint = [2a02:1234::1]:51820" := by decide

/-! ## Concrete environments used in witnesses and counterexamples -/

/-- Done marker present, and the request even supplies a wrong token. -/
def envDoneWrongToken : Env :=
  ⟨true, gs "secret", gs "nope", some (gs "[Peer]"), gs "app", gs "51820",
    some (gs "png"), true⟩

/-- Marker absent, token configured, request token present but wrong. -/
def envWrongToken : Env :=
  ⟨false, gs "secret", gs "nope", some (gs "[Peer]"), [], [],
    some (gs "png"), true⟩

/-- Marker absent, token configured, request token missing. -/
def envMissingToken : Env :=
  ⟨false, gs "secret", [], some (gs "[Peer]"), [], [], some (gs "png"), true⟩

/-- Marker absent, no token configured, config readable, QR encoding fails. -/
def envQrFail : Env :=
  ⟨false, [], [], some (gs "[Peer]"), [], [], none, true⟩

/-- Marker absent, no token configured, config read fails. -/
def envNoConf : Env :=
  ⟨false, [], [], none, [], [], some (gs "png"), true⟩

/-- Marker absent, no token configured, config readable, marker write fails. -/
def envWriteFail : Env :=
  ⟨false, [], [], some (gs "[Peer]"), [], [], some (gs "png"), false⟩

/-! ## Claims -/

/-- Claim C1: once the done marker exists, both bootstrap handlers answer
410 "bootstrap already completed" with no config read and no marker
write, regardless of the supplied token. -/
theorem bootstrap_done_marker_gate (e : Env) (hm : e.markerExists = true) :
    mainBootstrap e = (.err 410 (gs "bootstrap already completed"), ⟨false, false⟩) ∧
    serverBootstrap e = (.err 410 (gs "bootstrap already completed"), ⟨false, false⟩) := by
  simp [mainBootstrap, serverBootstrap, hm]

/-- Witness for C1 at a concrete environment whose request token is wrong. -/
theorem bootstrap_done_marker_gate_witness :
    mainBootstrap envDoneWrongToken =
      (.err 410 (gs "bootstrap already completed"), ⟨false, false⟩) ∧
    serverBootstrap envDoneWrongToken =
      (.err 410 (gs "bootstrap already completed"), ⟨false, false⟩) :=
  bootstrap_done_marker_gate envDoneWrongToken rfl

/-- Counterexample to claim C2 as stated: in `Server.bootstrap`
(`internal/bootstrap/server.go`), a present-but-mismatched token yields
status 401, not 403. -/
theorem token_mismatch_not_403_on_server :
    (serverBootstrap envWrongToken).1.status = 401 ∧
    ¬ (serverBootstrap envWrongToken).1.status = 403 := by decide

/-- Claim C2 (amended): with a token configured and the marker absent, a
missing token yields 401 in both handlers; a mismatched token yields 403
in the `cmd/bootstrap-http` handler but 401 in `Server.bootstrap`. -/
theorem token_auth_statuses (e : Env) (hm : e.markerExists = false)
    (ht : e.bootstrapToken ≠ []) :
    (e.reqToken = [] →
      (mainBootstrap e).1 = .err 401 (gs "missing token") ∧
      (serverBootstrap e).1 = .err 401 (gs "unauthorized")) ∧
    (e.reqToken ≠ e.bootstrapToken →
      (serverBootstrap e).1 = .err 401 (gs "unauthorized")) ∧
    (e.reqToken ≠ [] → e.reqToken ≠ e.bootstrapToken →
      (mainBootstrap e).1 = .err 403 (gs "invalid token")) := by
  refine ⟨?_, ?_, ?_⟩
  · intro hr
    have hne : e.reqToken ≠ e.bootstrapToken := by
      rw [hr]; exact fun h => ht h.symm
    simp [mainBootstrap, serverBootstrap, hm, ht, hr, hne]
  · intro hne
    simp [serverBootstrap, hm, ht, hne]
  · intro hne1 hne2
    simp [mainBootstrap, hm, ht, hne1, hne2]

/-- Witness for the amended C2 at concrete environments. -/
theorem token_auth_statuses_witness :
    (mainBootstrap envMissingToken).1 = .err 401 (gs "missing token") ∧
    (mainBootstrap envWrongToken).1 = .err 403 (gs "invalid token") ∧
    (serverBootstrap envWrongToken).1 = .err 401 (gs "unauthorized") :=
  ⟨((token_auth_statuses envMissingToken rfl (by decide)).1 rfl).1,
   (token_auth_statuses envWrongToken rfl (by decide)).2.2 (by decide) (by decide),
   (token_auth_statuses envWrongToken rfl (by decide)).2.1 (by decide)⟩

/-- Counterexample to claim C3 as stated: in `Server.bootstrap` the
`qrcode.Encode` error is discarded, so on a QR-encoding failure the
handler answers 200 (not 500) and the marker does get written. -/
theorem qr_failure_not_500_on_server :
    (serverBootstrap envQrFail).1.status = 200 ∧
    ¬ (serverBootstrap envQrFail).1.status = 500 ∧
    markerAfter envQrFail (serverBootstrap envQrFail).2 = true := by decide

/-- Claim C3 (amended): on a QR-encoding failure after a successful config
load, the `cmd/bootstrap-http` handler answers 500 and does not write the
marker (state stays Pending); `Server.bootstrap` instead ignores the
failure, writes the marker, and returns the page with an empty QR
payload. -/
theorem qr_failure_behaviour (e : Env) (conf : GoStr)
    (hm : e.markerExists = false) (ht : tokenOk e)
    (hc : e.confFile = some conf) (hq : e.qrResult = none) :
    mainBootstrap e = (.err 500 (gs "failed to generate qr"), ⟨true, false⟩) ∧
    markerAfter e (mainBootstrap e).2 = false ∧
    serverBootstrap e =
      (.page (rewriteEndpoint conf e.endpointHost e.endpointPort) [], ⟨true, true⟩) := by
  rcases ht with h0 | ⟨h1, h2⟩
  · simp [mainBootstrap, serverBootstrap, markerAfter, hm, h0, hc, hq]
  · simp [mainBootstrap, serverBootstrap, markerAfter, hm, h1, h2, hc, hq]

/-- Witness for the amended C3 at a concrete environment. -/
theorem qr_failure_behaviour_witness :
    mainBootstrap envQrFail = (.err 500 (gs "failed to generate qr"), ⟨true, false⟩) ∧
    markerAfter envQrFail (mainBootstrap envQrFail).2 = false ∧
    serverBootstrap envQrFail =
      (.page (rewriteEndpoint (gs "[Peer]") envQrFail.endpointHost
        envQrFail.endpointPort) [], ⟨true, true⟩) :=
  qr_failure_behaviour envQrFail (gs "[Peer]") rfl (Or.inl rfl) rfl rfl

/-- Claim C6: when the config read fails (marker absent, token accepted),
both handlers answer 503 "config not ready" and never write the marker,
so the bootstrap state stays Pending. -/
theorem config_load_failure_503 (e : Env) (hm : e.markerExists = false)
    (ht : tokenOk e) (hc : e.confFile = none) :
    mainBootstrap e = (.err 503 (gs "config not ready"), ⟨true, false⟩) ∧
    serverBootstrap e = (.err 503 (gs "config not ready"), ⟨true, false⟩) ∧
    markerAfter e (mainBootstrap e).2 = false ∧
    markerAfter e (serverBootstrap e).2 = false := by
  rcases ht with h0 | ⟨h1, h2⟩
  · simp [mainBootstrap, serverBootstrap, markerAfter, hm, hc, h0]
  · simp [mainBootstrap, serverBootstrap, markerAfter, hm, hc, h1, h2]

/-- Witness for C6 at a concrete environment. -/
theorem config_load_failure_503_witness :
    mainBootstrap envNoConf = (.err 503 (gs "config not ready"), ⟨true, false⟩) ∧
    serverBootstrap envNoConf = (.err 503 (gs "config not ready"), ⟨true, false⟩) ∧
    markerAfter envNoConf (mainBootstrap envNoConf).2 = false ∧
    markerAfter envNoConf (serverBootstrap envNoConf).2 = false :=
  config_load_failure_503 envNoConf rfl (Or.inl rfl) rfl

/-- Claim C7: with a token configured and the marker absent, a request
whose token is missing or wrong is rejected by both handlers with no
config read (and no marker write): the effects are empty. -/
theorem bad_token_no_config_read (e : Env) (hm : e.markerExists = false)
    (ht : e.bootstrapToken ≠ []) (hw : e.reqToken ≠ e.bootstrapToken) :
    (mainBootstrap e).2 = ⟨false, false⟩ ∧
    (serverBootstrap e).2 = ⟨false, false⟩ ∧
    (mainBootstrap e).2.readConfig = false ∧
    (serverBootstrap e).2.readConfig = false := by
  by_cases hr : e.reqToken = []
  · simp [mainBootstrap, serverBootstrap, hm, ht, hw, hr]
  · simp [mainBootstrap, serverBootstrap, hm, ht, hw, hr]

/-- Witness for C7: a missing and a wrong token at concrete environments. -/
theorem bad_token_no_config_read_witness :
    (mainBootstrap envMissingToken).2 = ⟨false, false⟩ ∧
    (serverBootstrap envWrongToken).2 = ⟨false, false⟩ :=
  ⟨(bad_token_no_config_read envMissingToken rfl (by decide) (by decide)).1,
   (bad_token_no_config_read envWrongToken rfl (by decide) (by decide)).2.1⟩

/-- Claim C9: with no public hostname configured, the unbracketed IPv6
endpoint line is split at its last colon and the host is bracketed. -/
theorem rewriteEndpoint_ipv6_bracket :
    rewriteEndpoint (gs "Endpoint = 2a02:1234::1:51820") (gs "") (gs "51820") =
      gs "Endpoint = [2a02:1234::1]:51820" := by decide

/-- Claim C10: `Server.bootstrap` discards the result of the marker write
(`_ = os.WriteFile(...)`): even when the write fails, it still returns the
rendered config page with status 200, the marker remains absent (state
Pending), and an identical later request is served the page again. -/
theorem server_marker_write_failure_ignored (e : Env) (conf : GoStr)
    (hm : e.markerExists = false) (ht : tokenOk e)
    (hc : e.confFile = some conf) (hw : e.writeOk = false) :
    (serverBootstrap e).1 =
      .page (rewriteEndpoint conf e.endpointHost e.endpointPort) (e.qrResult.getD []) ∧
    (serverBootstrap e).1.status = 200 ∧
    (serverBootstrap e).2.triedWrite = true ∧
    markerAfter e (serverBootstrap e).2 = false ∧
    (serverBootstrap { e with markerExists := markerAfter e (serverBootstrap e).2 }).1.status = 200 := by
  have hfst : (serverBootstrap e).1 =
      .page (rewriteEndpoint conf e.endpointHost e.endpointPort) (e.qrResult.getD []) ∧
      (serverBootstrap e).2 = ⟨true, true⟩ := by
    rcases ht with h0 | ⟨h1, h2⟩
    · simp [serverBootstrap, hm, h0, hc]
    · simp [serverBootstrap, hm, h1, h2, hc]
  have hmarker : markerAfter e (serverBootstrap e).2 = false := by
    rw [hfst.2]; simp [markerAfter, hm, hw]
  have hee : ({ e with markerExists := markerAfter e (serverBootstrap e).2 } : Env) = e := by
    rw [hmarker]; cases e with
    | mk m bt rt cf eh ep qr w =>
      simp only at hm
      rw [show ({ Env.mk m bt rt cf eh ep qr w with markerExists := false } : Env) =
        Env.mk false bt rt cf eh ep qr w from rfl, hm]
  refine ⟨hfst.1, ?_, ?_, hmarker, ?_⟩
  · rw [hfst.1]; rfl
  · rw [hfst.2]
  · rw [hee, hfst.1]; rfl

/-- Witness for C10 at a concrete environment with a failing write. -/
theorem server_marker_write_failure_ignored_witness :
    (serverBootstrap envWriteFail).1.status = 200 ∧
    markerAfter envWriteFail (serverBootstrap envWriteFail).2 = false :=
  ⟨(server_marker_write_failure_ignored envWriteFail (gs "[Peer]") rfl
      (Or.inl rfl) rfl rfl).2.1,
   (server_marker_write_failure_ignored envWriteFail (gs "[Peer]") rfl
      (Or.inl rfl) rfl rfl).2.2.2.1⟩

/-- Claim C5: after the startup window, a tick whose poll errors is
treated as "still active": the loop does not terminate, sends the ping,
and leaves the tracker (lastIdle, connected, connectedSince) unchanged. -/
theorem keepalive_poll_error_conservative
    (sinceStart now : Int) (pingOk : Bool) (st : Tracker)
    (hs : startupWindow < sinceStart) :
    keepaliveTick sinceStart now .pollErr pingOk st = ⟨false, true, st⟩ := by
  unfold keepaliveTick
  rw [if_neg (not_le.mpr hs)]

/-- Witness for C5 one tick past the startup window. -/
theorem keepalive_poll_error_conservative_witness :
    keepaliveTick (startupWindow + 1) 0 .pollErr true Tracker.init =
      ⟨false, true, Tracker.init⟩ :=
  keepalive_poll_error_conservative (startupWindow + 1) 0 true Tracker.init (by decide)

/-- Claim C4: a tick of the keepalive loop terminates the loop exactly
when it is past the startup window and the poll reports either that no
peer ever handshook or an idle duration above `maxIdle`; a terminating
tick sends no ping.  (In particular neither a poll error, nor the ping
outcome, nor any tick inside the startup window ever terminates it.) -/
theorem keepalive_termination_characterization
    (sinceStart now : Int) (poll : PollResult) (pingOk : Bool) (st : Tracker) :
    ((keepaliveTick sinceStart now poll pingOk st).terminated = true ↔
      (startupWindow < sinceStart ∧
        (poll = .noHandshake ∨ ∃ i, poll = .active i ∧ maxIdle < i))) ∧
    ((keepaliveTick sinceStart now poll pingOk st).terminated = true →
      (keepaliveTick sinceStart now poll pingOk st).pinged = false) := by
  by_cases hs : sinceStart ≤ startupWindow
  · have hres : keepaliveTick sinceStart now poll pingOk st = ⟨false, true, st⟩ := by
      unfold keepaliveTick; rw [if_pos hs]
    rw [hres]
    constructor
    · simp
      intro h
      exact absurd h (not_lt.mpr hs)
    · simp
  · have hlt : startupWindow < sinceStart := not_le.mp hs
    cases poll with
    | pollErr =>
      have hres : keepaliveTick sinceStart now .pollErr pingOk st = ⟨false, true, st⟩ := by
        unfold keepaliveTick; rw [if_neg hs]
      rw [hres]
      constructor
      · simp
      · simp
    | noHandshake =>
      have hres : keepaliveTick sinceStart now .noHandshake pingOk st = ⟨true, false, st⟩ := by
        unfold keepaliveTick; rw [if_neg hs]
      rw [hres]
      constructor
      · simp [hlt]
      · intro _; rfl
    | active idle =>
      by_cases hi : maxIdle < idle
      · have hres : keepaliveTick sinceStart now (.active idle) pingOk st =
            ⟨true, false, { st with lastIdle := idle }⟩ := by
          unfold keepaliveTick; rw [if_neg hs]; simp [hi]
        rw [hres]
        constructor
        · simp [hlt, hi]
        · intro _; rfl
      · have hres : (keepaliveTick sinceStart now (.active idle) pingOk st).terminated = false := by
          unfold keepaliveTick; rw [if_neg hs]
          simp only [hi, if_false]
          cases st.connected <;> simp
        rw [hres]
        constructor
        · simp [hi]
        · simp

/-- Witness for C4: instantiation at a tick past the startup window whose
poll reports that no peer ever handshook. -/
theorem keepalive_termination_characterization_witness :
    ((keepaliveTick (startupWindow + 1) 0 .noHandshake true Tracker.init).terminated = true ↔
      (startupWindow < startupWindow + 1 ∧
        (PollResult.noHandshake = .noHandshake ∨
          ∃ i, PollResult.noHandshake = .active i ∧ maxIdle < i))) ∧
    ((keepaliveTick (startupWindow + 1) 0 .noHandshake true Tracker.init).terminated = true →
      (keepaliveTick (startupWindow + 1) 0 .noHandshake true Tracker.init).pinged = false) :=
  keepalive_termination_characterization (startupWindow + 1) 0 .noHandshake true Tracker.init

/-! ## Frame property of the endpoint rewrite (claim C8) -/

/-- `takeWhile` of a list all of whose elements satisfy `p`, followed by an
element refuting `p`, is exactly that list. -/
theorem takeWhile_append_cons {p : Char → Bool} :
    ∀ a : GoStr, (∀ c ∈ a, p c = true) → ∀ x : Char, p x = false → ∀ t : GoStr,
      (a ++ x :: t).takeWhile p = a := by
  intro a
  induction a with
  | nil =>
    intro _ x hx t
    simp [List.takeWhile_cons, hx]
  | cons c cs ih =>
    intro ha x hx t
    have hc : p c = true := ha c (List.mem_cons_self c cs)
    simp only [List.cons_append, List.takeWhile_cons_of_pos hc, List.cons.injEq, true_and]
    exact ih (fun d hd => ha d (List.mem_cons_of_mem c hd)) x hx t

/-- Every line produced by `rewriteLine` keeps the original line's leading
whitespace: both rewrite shapes are `indent ++ "Endpoint = ..."`. -/
theorem leadWS_rewriteLine {line appName port nl : GoStr}
    (h : rewriteLine line appName port = some nl) :
    leadWS nl = leadWS line := by
  have hlead : ∀ s : GoStr, leadWS (leadWS line ++ 'E' :: s) = leadWS line := fun s =>
    takeWhile_append_cons (leadWS line) (fun c hc => List.mem_takeWhile_imp hc)
      'E' (by decide) s
  simp only [rewriteLine] at h
  split at h
  · rw [Option.some.injEq] at h
    subst h
    simp only [List.append_assoc]
    exact hlead _
  · split at h
    · split at h
      · split at h
        · rw [Option.some.injEq] at h
          subst h
          simp only [List.append_assoc]
          exact hlead _
        · exact Option.noConfusion h
      · exact Option.noConfusion h
    · exact Option.noConfusion h

/-- Shape of `rewriteLines`: either it leaves the config alone, or the
first `Endpoint` line (and only that line) is replaced, with its leading
whitespace preserved. -/
theorem rewriteLines_spec (appName port : GoStr) :
    ∀ ls : List GoStr,
      rewriteLines appName port ls = none ∨
      ∃ i nl orig, firstEndpointIdx ls = some i ∧
        ls[i]? = some orig ∧ isEndpointLine orig = true ∧
        leadWS nl = leadWS orig ∧
        rewriteLines appName port ls = some (ls.set i nl) := by
  intro ls
  induction ls with
  | nil => exact Or.inl rfl
  | cons line rest ih =>
    by_cases hE : isEndpointLine line = true
    · cases hR : rewriteLine line appName port with
      | none =>
        left
        simp [rewriteLines, hE, hR]
      | some nl =>
        right
        refine ⟨0, nl, line, ?_, by simp, hE, leadWS_rewriteLine hR, ?_⟩
        · simp [firstEndpointIdx, hE]
        · simp [rewriteLines, hE, hR]
    · rcases ih with hnone | ⟨i, nl, orig, hidx, hget, horig, hlw, hrw⟩
      · left
        simp [rewriteLines, hE, hnone]
      · right
        refine ⟨i + 1, nl, orig, ?_, ?_, horig, hlw, ?_⟩
        · simp [firstEndpointIdx, hE, hidx]
        · simpa using hget
        · simp [rewriteLines, hE, hrw]

/-- Claim C8: for every input text, host and port, `rewriteEndpoint`
either returns the text verbatim, or replaces exactly the first line whose
trimmed form starts the `Endpoint` directive, preserving that line's
leading whitespace and every other line byte-for-byte. -/
theorem rewriteEndpoint_frame (conf appName port : GoStr) :
    rewriteEndpoint conf appName port = conf ∨
    ∃ i nl orig,
      firstEndpointIdx (splitOnNl conf) = some i ∧
      (splitOnNl conf)[i]? = some orig ∧
      isEndpointLine orig = true ∧
      leadWS nl = leadWS orig ∧
      rewriteEndpoint conf appName port = joinNl ((splitOnNl conf).set i nl) ∧
      (∀ j, j ≠ i → ((splitOnNl conf).set i nl)[j]? = (splitOnNl conf)[j]?) := by
  rcases rewriteLines_spec appName port (splitOnNl conf) with
    hnone | ⟨i, nl, orig, hidx, hget, horig, hlw, hrw⟩
  · left
    simp [rewriteEndpoint, hnone]
  · right
    refine ⟨i, nl, orig, hidx, hget, horig, hlw, ?_, ?_⟩
    · simp [rewriteEndpoint, hrw]
    · intro j hj
      exact List.getElem?_set_ne (Ne.symm hj)

/-- Witness for C8: instantiation at a concrete config, host and port. -/
theorem rewriteEndpoint_frame_witness :
    rewriteEndpoint (gs "[Peer]") (gs "") (gs "") = gs "[Peer]" ∨
    ∃ i nl orig,
      firstEndpointIdx (splitOnNl (gs "[Peer]")) = some i ∧
      (splitOnNl (gs "[Peer]"))[i]? = some orig ∧
      isEndpointLine orig = true ∧
      leadWS nl = leadWS orig ∧
      rewriteEndpoint (gs "[Peer]") (gs "") (gs "") =
        joinNl ((splitOnNl (gs "[Peer]")).set i nl) ∧
      (∀ j, j ≠ i →
        ((splitOnNl (gs "[Peer]")).set i nl)[j]? = (splitOnNl (gs "[Peer]"))[j]?) :=
  rewriteEndpoint_frame (gs "[Peer]") (gs "") (gs "")
